import Mathlib

/-!
# Verification of the `mlb_pred` ingestion and modeling pipeline

A shallow embedding of the repository's two modules:

* `mlbpred/DataIngest.py` — the `Initializer` class (fixed `create table`
  statements for the tables `seasons`, `teams`, `schedule`, `scores`) and the
  `Ingestor` class (HTTP responses reshaped into rows and inserted into those
  tables, with an incremental diff check for box scores only).
* `mlbpred/Model.py` — the `Model` class (the `_stanify_data` join producing
  the per-game model input, the `_compile` error translation, and the
  `_get_estimates` / `_get_plot_data` reporting queries).

Tables are lists of rows; DuckDB `insert` into a table with a primary key is
modelled as an all-or-nothing statement that fails with a constraint error
when an inserted key collides with a stored key or with another key of the
same batch, exactly as DuckDB enforces `primary key` declarations.  Dates are
day numbers (`Int`); SQL `varchar` columns are `String`.  API responses are
parameters of the ingest functions, so every claim quantifies over them.
-/

namespace MlbPred

/-- Row of the `seasons` table (`create table seasons` in
`DataIngest.Initializer._seasons`): nine columns, primary key `season_id`. -/
structure SeasonRow where
  season_id : String
  has_wildcard : Bool
  preseason_start : Int
  season_start : Int
  regular_season_start : Int
  regular_season_end : Int
  season_end : Int
  offseason_start : Int
  offseason_end : Int
deriving DecidableEq, Repr

/-- Row of the `teams` table (`DataIngest.Initializer._teams`):
primary key `(season_id, team_id)`. -/
structure TeamRow where
  season_id : String
  team_id : String
  team_name : String
  team_abbr : String
deriving DecidableEq, Repr

/-- Row of the `schedule` table (`DataIngest.Initializer._schedule`):
no primary key is declared (the source comments that the API data has
duplicate/missing values for the natural key). -/
structure ScheduleRow where
  season_id : String
  game_date : Int
  game_id : String
  double_header : String
  away_team : String
  away_team_wins : Int
  away_team_losses : Int
  home_team : String
  home_team_wins : Int
  home_team_losses : Int
deriving DecidableEq, Repr

/-- Row of the `scores` table (`DataIngest.Initializer._score`):
no primary key is declared. -/
structure ScoreRow where
  game_id : String
  home_runs : Int
  away_runs : Int
deriving DecidableEq, Repr

/-- The database: the four tables the initializer creates. -/
structure DB where
  seasons : List SeasonRow
  teams : List TeamRow
  schedule : List ScheduleRow
  scores : List ScoreRow
deriving DecidableEq, Repr

/-- The empty database, as left by `Initializer.run`. -/
def DB.empty : DB := { seasons := [], teams := [], schedule := [], scores := [] }

/-! ## Table initializer (`DataIngest.Initializer`) -/

/-- One column of a `create table` statement. -/
structure ColumnDef where
  col_name : String
  col_type : String
deriving DecidableEq, Repr

/-- One `create table` statement: name, columns, primary-key columns, and
foreign keys (referencing columns, referenced table, referenced columns). -/
structure TableDef where
  table_name : String
  columns : List ColumnDef
  primary_key : List String
  foreign_keys : List (List String × String × List String)
deriving DecidableEq, Repr

/-- The `create table seasons` statement of `Initializer._seasons`. -/
def seasonsTableDef : TableDef :=
  { table_name := "seasons"
    columns :=
      [ ⟨"season_id", "varchar(4)"⟩, ⟨"has_wildcard", "boolean"⟩
      , ⟨"preseason_start", "date"⟩, ⟨"season_start", "date"⟩
      , ⟨"regular_season_start", "date"⟩, ⟨"regular_season_end", "date"⟩
      , ⟨"season_end", "date"⟩, ⟨"offseason_start", "date"⟩
      , ⟨"offseason_end", "date"⟩ ]
    primary_key := ["season_id"]
    foreign_keys := [] }

/-- The `create table teams` statement of `Initializer._teams`. -/
def teamsTableDef : TableDef :=
  { table_name := "teams"
    columns :=
      [ ⟨"season_id", "varchar(4)"⟩, ⟨"team_id", "varchar(4)"⟩
      , ⟨"team_name", "varchar(50)"⟩, ⟨"team_abbr", "varchar(4)"⟩ ]
    primary_key := ["season_id", "team_id"]
    foreign_keys := [(["season_id"], "seasons", ["season_id"])] }

/-- The `create table schedule` statement of `Initializer._schedule`
(the two team foreign keys are commented out in the source). -/
def scheduleTableDef : TableDef :=
  { table_name := "schedule"
    columns :=
      [ ⟨"season_id", "varchar(4)"⟩, ⟨"game_date", "date"⟩
      , ⟨"game_id", "varchar(10)"⟩, ⟨"double_header", "varchar(1)"⟩
      , ⟨"away_team", "varchar(4)"⟩, ⟨"away_team_wins", "integer"⟩
      , ⟨"away_team_losses", "integer"⟩, ⟨"home_team", "varchar(4)"⟩
      , ⟨"home_team_wins", "integer"⟩, ⟨"home_team_losses", "integer"⟩ ]
    primary_key := []
    foreign_keys := [(["season_id"], "seasons", ["season_id"])] }

/-- The `create table scores` statement of `Initializer._score`. -/
def scoresTableDef : TableDef :=
  { table_name := "scores"
    columns :=
      [ ⟨"game_id", "varchar(10)"⟩, ⟨"home_runs", "integer"⟩
      , ⟨"away_runs", "integer"⟩ ]
    primary_key := []
    foreign_keys := [] }

/-- The schema-definition statements `Initializer.run` issues, in order
(`_seasons`, `_teams`, `_schedule`, `_score`). -/
def initializerRun : List TableDef :=
  [seasonsTableDef, teamsTableDef, scheduleTableDef, scoresTableDef]

/-! ## DuckDB insert semantics -/

/-- The constraint error DuckDB raises when an `insert` violates a declared
`primary key`. -/
def pkErrMsg : String :=
  "Constraint Error: duplicate key violates primary key constraint"

/-- A single `insert` statement against a table whose schema declares a
primary key extracted by `key`: the statement fails (and changes nothing)
when an inserted row's key is already stored or appears twice in the batch;
otherwise all rows are appended. -/
def pkInsert {α κ : Type} [DecidableEq α] [DecidableEq κ] (key : α → κ)
    (table rows : List α) : Except String (List α) :=
  if rows.any (fun r => table.any (fun t => key t = key r))
      || !decide (rows.map key).Nodup
  then Except.error pkErrMsg
  else Except.ok (table ++ rows)

/-! ## Ingestor (`DataIngest.Ingestor`) -/

/-- The API responses the `Ingestor` receives, one field per endpoint:
`seasons`, `teams` (per season), `schedule` (per season; `none` models a
response with no game details, on which polars raises the `SchemaError`
the source catches and skips), and `game_linescore` (per game id; `none`
models a response whose missing run totals make the interpolated `insert`
raise the `BinderException` the source catches and skips). -/
structure ApiData where
  seasonsResp : List SeasonRow
  teamsResp : String → List TeamRow
  scheduleResp : String → Option (List ScheduleRow)
  linescoreResp : String → Option (Int × Int)

/-- Embedding of `Ingestor._season`: one unconditional `insert into seasons` of the whole
reshaped response, subject to the table's primary key on `season_id`. -/
def ingestSeason (db : DB) (api : ApiData) : Except String DB := do
  let seasons ← pkInsert SeasonRow.season_id db.seasons api.seasonsResp
  pure { db with seasons := seasons }

/-- Embedding of `Ingestor._list_seasons`: `select distinct season_id from seasons`. -/
def listSeasons (db : DB) : List String :=
  (db.seasons.map SeasonRow.season_id).dedup

/-- The rows the teams step tries to insert: for each stored season id, every
reshaped row of that season's `teams` response (`Ingestor._teams`,
loop body's `insert into teams`). -/
def teamsAttempted (db : DB) (api : ApiData) : List TeamRow :=
  (listSeasons db).flatMap api.teamsResp

/-- Embedding of `Ingestor._teams`: one `insert into teams` per stored season, each
subject to the primary key `(season_id, team_id)`; an uncaught constraint
error aborts the method. -/
def ingestTeams (db : DB) (api : ApiData) : Except String DB := do
  let teams ← (listSeasons db).foldlM
    (fun acc i => pkInsert (fun t => (t.season_id, t.team_id)) acc (api.teamsResp i))
    db.teams
  pure { db with teams := teams }

/-- Embedding of `Ingestor._schedule`: one `insert into schedule` per stored season; the
table has no key constraint, so every reshaped response row is appended; a
season whose response has no game details (`SchemaError`) is skipped. -/
def ingestSchedule (db : DB) (api : ApiData) : DB :=
  { db with schedule :=
      db.schedule ++ (listSeasons db).flatMap (fun i => (api.scheduleResp i).getD []) }

/-- SQL `cast(x as integer)` on the ingested `varchar` columns: the base-10
value of a string of decimal digits.  The ingested ids and season labels are
always such strings; DuckDB raises a conversion error on any other string
(modelled as 0, a value the queries below then filter out or fail to join). -/
def sqlCastInt (s : String) : Int :=
  if s.toList ≠ [] ∧ s.toList.all Char.isDigit then
    ((s.toList.foldl (fun n c => 10 * n + (c.toNat - 48)) 0 : Nat) : Int)
  else 0

/-- First query of `Ingestor._score`: the candidate game ids — schedule rows
joined to their season row, kept when the game date is not after `today`,
the season id casts to at least 2019, and the date lies between the season's
regular-season bounds (a schedule row with no matching season row yields a
NULL `between`, which filters the row out, as in the source's left join). -/
def scoreCandidates (db : DB) (today : Int) : List String :=
  db.schedule.flatMap (fun g =>
    (db.seasons.filter (fun s => s.season_id = g.season_id)).filterMap (fun s =>
      if g.game_date ≤ today ∧ 2019 ≤ sqlCastInt g.season_id
          ∧ s.regular_season_start ≤ g.game_date
          ∧ g.game_date ≤ s.regular_season_end
      then some g.game_id else none))

/-- The `games_filtered` list of `Ingestor._score`: the candidates whose game id is not
already stored in `scores`; these are exactly the ids for which a
`game_linescore` request is made. -/
def scoreRequested (db : DB) (today : Int) : List String :=
  (scoreCandidates db today).filter
    (fun x => decide (x ∉ db.scores.map ScoreRow.game_id))

/-- Insert loop of `Ingestor._score`: for each requested game id, insert the returned run
totals into `scores` (no key constraint; a response on which the insert
raises `BinderException` is skipped). -/
def ingestScore (db : DB) (api : ApiData) (today : Int) : DB :=
  if (scoreRequested db today).length > 0 then
    { db with scores :=
        db.scores ++ (scoreRequested db today).filterMap (fun i =>
          (api.linescoreResp i).map (fun p => ⟨i, p.1, p.2⟩)) }
  else db

/-- Embedding of `Ingestor.run`: `_season`, `_teams`, `_schedule`, `_score` in order; an
uncaught exception aborts the run. -/
def ingestRun (db : DB) (api : ApiData) (today : Int) : Except String DB := do
  let db1 ← ingestSeason db api
  let db2 ← ingestTeams db1 api
  let db3 := ingestSchedule db2 api
  pure (ingestScore db3 api today)

/-! ## Model driver (`Model.py`) -/

/-- SQL `like` with a pattern of the form percent-pat-percent: substring containment. -/
def strContains (pat s : String) : Bool :=
  decide (pat.toList <:+: s.toList)

/-- The `teams` rows the model queries select:
`from teams where season_id like` the requested season. -/
def teamsOfSeason (db : DB) (season : Int) : List TeamRow :=
  db.teams.filter (fun t => strContains (toString season) t.season_id)

/-- Lexicographic `varchar` comparison of the `order by team_id` window in
`Model._stanify_data` CTE `b` (codepoint order on the column value). -/
def teamIdLe (a b : TeamRow) : Prop :=
  a.team_id.toList ≤ b.team_id.toList

instance : DecidableRel teamIdLe :=
  fun a b => inferInstanceAs (Decidable (a.team_id.toList ≤ b.team_id.toList))

/-- The `order by team_id, team_abbr` window of the reporting queries
(`Model._get_estimates` CTE `b`, `Model._get_plot_data` CTE `c`). -/
def teamIdAbbrLe (a b : TeamRow) : Prop :=
  a.team_id.toList < b.team_id.toList
    ∨ (a.team_id = b.team_id ∧ a.team_abbr.toList ≤ b.team_abbr.toList)

instance : DecidableRel teamIdAbbrLe :=
  fun a b => inferInstanceAs (Decidable (_ ∨ _))

/-- CTE `b` of `Model._stanify_data`: `select distinct cast(team_id as integer)
as team_id, row_number() over(order by team_id) as const_id from teams where
season_id like` the requested season — the window is computed on the filtered rows
before `distinct` applies to the resulting pairs. -/
def modelTeamIndex (db : DB) (season : Int) : List (Int × Int) :=
  ((((teamsOfSeason db season).insertionSort teamIdLe).enum.map
    (fun p => (sqlCastInt p.2.team_id, (p.1 : Int) + 1)))).dedup

/-- CTE `b` of `Model._get_estimates` and CTE `c` of `Model._get_plot_data`:
`select distinct cast(team_id as integer) as team_id, team_abbr,
row_number() over(order by team_id, team_abbr) as const_id from teams where
season_id like` the requested season. -/
def reportTeamIndex (db : DB) (season : Int) : List (Int × String × Int) :=
  ((((teamsOfSeason db season).insertionSort teamIdAbbrLe).enum.map
    (fun p => (sqlCastInt p.2.team_id, p.2.team_abbr, (p.1 : Int) + 1)))).dedup

/-- Row of CTE `a` of `Model._stanify_data`: scores joined to schedule on
`game_id`, restricted to the requested season, team ids cast to integers. -/
structure ARow where
  game_id : String
  away_team : Int
  home_team : Int
  away_runs : Int
  home_runs : Int
deriving DecidableEq, Repr

/-- CTE `a` of `Model._stanify_data`. -/
def cteA (db : DB) (season : Int) : List ARow :=
  db.scores.flatMap (fun sc =>
    (db.schedule.filter (fun g =>
        g.game_id = sc.game_id ∧ strContains (toString season) g.season_id = true)).map
      (fun g =>
        { game_id := sc.game_id
          away_team := sqlCastInt g.away_team
          home_team := sqlCastInt g.home_team
          away_runs := sc.away_runs
          home_runs := sc.home_runs }))

/-- Row of CTE `c` of `Model._stanify_data`: the away team replaced by its
contiguous index. -/
structure CRow where
  game_id : String
  away_team : Int
  home_team : Int
  away_runs : Int
  home_runs : Int
deriving DecidableEq, Repr

/-- CTE `c` of `Model._stanify_data`: left join of `a` with `b` on the away
team id, kept only `where b.team_id not null` (inner-join semantics). -/
def cteC (db : DB) (season : Int) : List CRow :=
  (cteA db season).flatMap (fun a =>
    ((modelTeamIndex db season).filter (fun b => b.1 = a.away_team)).map
      (fun b =>
        { game_id := a.game_id
          away_team := b.2
          home_team := a.home_team
          away_runs := a.away_runs
          home_runs := a.home_runs }))

/-- The `home_win` case expression of CTE `d`:
1 when the home team outscored the away team, 0 otherwise. -/
def homeWinVal (hr ar : Int) : Int :=
  if hr > ar then 1 else 0

/-- The `home_ord` case expression of CTE `d`: five branches on the run
differential, with no `else`, so a differential matching no branch would
yield SQL NULL (`none`). -/
def homeOrdVal (hr ar : Int) : Option Int :=
  if hr - ar < -4 then some 1
  else if -4 ≤ hr - ar ∧ hr - ar ≤ -1 then some 2
  else if hr - ar = 0 then some 3
  else if 1 ≤ hr - ar ∧ hr - ar ≤ 4 then some 4
  else if hr - ar > 4 then some 5
  else none

/-- Row of CTE `d` of `Model._stanify_data`: both teams as contiguous
indices, plus the binary and ordinal outcomes. -/
structure DRow where
  game_id : String
  away_team : Int
  home_team : Int
  home_win : Int
  home_ord : Option Int
deriving DecidableEq, Repr

/-- CTE `d` of `Model._stanify_data`: join of `c` with `b` on the home team id
(inner-join semantics via `where b.team_id not null`), computing the two
outcome columns. -/
def cteD (db : DB) (season : Int) : List DRow :=
  (cteC db season).flatMap (fun c =>
    ((modelTeamIndex db season).filter (fun b => b.1 = c.home_team)).map
      (fun b =>
        { game_id := c.game_id
          away_team := c.away_team
          home_team := b.2
          home_win := homeWinVal c.home_runs c.away_runs
          home_ord := homeOrdVal c.home_runs c.away_runs }))

/-- Final selection of `Model._stanify_data`: `select distinct * from d`. -/
def stanifyRows (db : DB) (season : Int) : List DRow :=
  (cteD db season).dedup

/-! ## Reporter (`Model._get_estimates`) -/

/-- One row of the summarized draws frame: the `team_id` index label (e.g.
`rank[3]`) and the 5%, 50% and 95% percentile columns.  The percentile
values are opaque data the query only joins, copies and compares, so they
are carried as integers. -/
structure DrawRow where
  name : String
  p5 : Int
  p50 : Int
  p95 : Int
deriving DecidableEq, Repr

/-- The `regexp_extract` of a digit run: the first maximal run of decimal
digits of the string (empty when there is none). -/
def extractDigits (s : String) : String :=
  ⟨(s.toList.dropWhile (fun c => !c.isDigit)).takeWhile (fun c => c.isDigit)⟩

/-- `Model._get_estimates` CTE `a`: draws rows whose label matches
`like` a rank label, with the digits extracted and the three percentiles. -/
def estCteA (draws : List DrawRow) : List (String × Int × Int × Int) :=
  (draws.filter (fun d => strContains "rank" d.name)).map
    (fun d => (extractDigits d.name, d.p5, d.p50, d.p95))

/-- Row of the reporter's CSV: team abbreviation, the extracted index label,
and the three percentile estimates. -/
structure EstRow where
  team_abbr : String
  team_id : String
  ci_low : Int
  median : Int
  ci_high : Int
deriving DecidableEq, Repr

/-- `Model._get_estimates` CTE `c`: join of `a` with the team index map on
`cast(a.team_id as integer) = b.const_id`. -/
def estCteC (draws : List DrawRow) (db : DB) (season : Int) : List EstRow :=
  (estCteA draws).flatMap (fun a =>
    ((reportTeamIndex db season).filter (fun b => sqlCastInt a.1 = b.2.2)).map
      (fun b =>
        { team_abbr := b.2.1
          team_id := a.1
          ci_low := a.2.1
          median := a.2.2.1
          ci_high := a.2.2.2 }))

/-- The final `order by median, ci_low, ci_high asc` of
`Model._get_estimates`. -/
def estLe (r s : EstRow) : Prop :=
  r.median < s.median
    ∨ (r.median = s.median
        ∧ (r.ci_low < s.ci_low
            ∨ (r.ci_low = s.ci_low ∧ r.ci_high ≤ s.ci_high)))

instance : DecidableRel estLe :=
  fun r s => inferInstanceAs (Decidable (_ ∨ _))

/-- `Model._get_estimates`: the rows written to the CSV, in file order. -/
def getEstimates (draws : List DrawRow) (db : DB) (season : Int) : List EstRow :=
  (estCteC draws db season).insertionSort estLe

/-! ## Model compilation (`Model._compile`) -/

/-- The Python exceptions `Model._compile` distinguishes. -/
inductive PyExc where
  | valueError : PyExc
  | fileNotFoundError (msg : String) : PyExc
  | otherExc (msg : String) : PyExc
deriving DecidableEq, Repr

/-- The message of the `FileNotFoundError` raised by `Model._compile`,
interpolating the configured stan-file path. -/
def fnfMessage (mod_path : String) : String :=
  "\n                Path to the stan file passed: " ++ mod_path ++
  ".\n\n                This appears to be an invalid path. Please check that the path\n                to the stan file is correct.\n                "

/-- `Model._compile`: the `cmdstanpy.CmdStanModel` construction (an external
call, passed in as `result`) is tried; a `ValueError` is translated into a
`FileNotFoundError` naming the configured path; success stores the model. -/
def compileStep {M : Type} (result : Except PyExc M) (mod_path : String) :
    Except PyExc M :=
  match result with
  | Except.ok m => Except.ok m
  | Except.error PyExc.valueError =>
      Except.error (PyExc.fileNotFoundError (fnfMessage mod_path))
  | Except.error e => Except.error e

/-! ## Concrete data for witnesses and counterexamples -/

/-- A concrete 2024 season row (dates as day numbers). -/
def exSeasonRow : SeasonRow :=
  { season_id := "2024", has_wildcard := true, preseason_start := 0
    season_start := 5, regular_season_start := 10, regular_season_end := 15
    season_end := 16, offseason_start := 17, offseason_end := 20 }

/-- A concrete team row. -/
def exTeamRow : TeamRow :=
  { season_id := "2024", team_id := "108", team_name := "Los Angeles Angels"
    team_abbr := "LAA" }

/-- A second concrete team row. -/
def exTeamRow2 : TeamRow :=
  { season_id := "2024", team_id := "109", team_name := "Arizona Diamondbacks"
    team_abbr := "AZ" }

/-- A concrete schedule row: a regular-season 2024 game. -/
def exScheduleRow : ScheduleRow :=
  { season_id := "2024", game_date := 12, game_id := "745", double_header := "N"
    away_team := "108", away_team_wins := 1, away_team_losses := 0
    home_team := "109", home_team_wins := 0, home_team_losses := 1 }

/-- Concrete API responses: one season, two teams, one game whose linescore
reports 3 home runs and 5 away runs. -/
def exApi : ApiData :=
  { seasonsResp := [exSeasonRow]
    teamsResp := fun s => if s = "2024" then [exTeamRow, exTeamRow2] else []
    scheduleResp := fun s => if s = "2024" then some [exScheduleRow] else none
    linescoreResp := fun g => if g = "745" then some (3, 5) else none }

/-- The database produced by a first ingestion run on `exApi` from the empty
database (checked below in `exDB1_eq`). -/
def exDB1 : DB :=
  { seasons := [exSeasonRow]
    teams := [exTeamRow, exTeamRow2]
    schedule := [exScheduleRow]
    scores := [{ game_id := "745", home_runs := 3, away_runs := 5 }] }

/-- A database holding the ingested season, teams and schedule but no scores
yet, as `Ingestor._score` sees it on a first run. -/
def exDBpre : DB :=
  { seasons := [exSeasonRow]
    teams := [exTeamRow, exTeamRow2]
    schedule := [exScheduleRow]
    scores := [] }

/-- A concrete summarized-draws frame with one `rank` row per team index. -/
def exDraws : List DrawRow :=
  [ { name := "rank[1]", p5 := 3, p50 := 5, p95 := 9 }
  , { name := "rank[2]", p5 := 1, p50 := 2, p95 := 4 } ]

/-! ## Theorems -/

/-- Claim C6: `Initializer.run` issues fixed schema-definition statements for
exactly four tables, named `seasons`, `teams`, `schedule` and `scores`, and
issues no other schema-definition statement. -/
theorem C6_initializer_four_tables :
    initializerRun.map TableDef.table_name = ["seasons", "teams", "schedule", "scores"] ∧
    initializerRun.length = 4 :=
  ⟨rfl, rfl⟩

/-- Claim C8: the `home_ord` case expression is exhaustive on integer run
totals — it always produces a value in `{1, 2, 3, 4, 5}` and never NULL. -/
theorem C8_home_ord_exhaustive (hr ar : Int) :
    ∃ v, homeOrdVal hr ar = some v ∧ 1 ≤ v ∧ v ≤ 5 := by
  unfold homeOrdVal
  split_ifs with h1 h2 h3 h4 h5
  · exact ⟨1, rfl, by omega⟩
  · exact ⟨2, rfl, by omega⟩
  · exact ⟨3, rfl, by omega⟩
  · exact ⟨4, rfl, by omega⟩
  · exact ⟨5, rfl, by omega⟩
  · exfalso; omega

/-- Any string is contained in the concatenation that surrounds it. -/
theorem strContains_of_append (pre p suf : String) :
    strContains p (pre ++ p ++ suf) = true := by
  unfold strContains
  rw [decide_eq_true_eq]
  exact ⟨pre.toList, suf.toList, by simp [String.toList]⟩

/-- Claim C10: `Model._compile` translates a `ValueError` from model
construction into a `FileNotFoundError` whose message names the configured
stan-file path, and passes a successful construction through unchanged with
no exception. -/
theorem C10_compile_error_translation {M : Type} (result : Except PyExc M)
    (mod_path : String) :
    (result = Except.error PyExc.valueError →
        compileStep result mod_path =
          Except.error (PyExc.fileNotFoundError (fnfMessage mod_path)) ∧
        strContains mod_path (fnfMessage mod_path) = true) ∧
    (∀ m, result = Except.ok m → compileStep result mod_path = Except.ok m) := by
  constructor
  · intro h
    subst h
    exact ⟨rfl, strContains_of_append "\n                Path to the stan file passed: " mod_path
      (".\n\n                This appears to be an invalid path. Please check that the path\n                to the stan file is correct.\n                ")⟩
  · intro m h
    subst h
    rfl

/-- Witness for C10 at a concrete failing construction and the default
stan-file path. -/
theorem C10_witness :
    compileStep (Except.error PyExc.valueError : Except PyExc String) "./mlbpred/bt.stan" =
      Except.error (PyExc.fileNotFoundError (fnfMessage "./mlbpred/bt.stan")) ∧
    strContains "./mlbpred/bt.stan" (fnfMessage "./mlbpred/bt.stan") = true :=
  (C10_compile_error_translation (Except.error PyExc.valueError) "./mlbpred/bt.stan").1 rfl

/-- A stored game id never passes the `games_filtered` diff check. -/
theorem not_requested_of_stored (db : DB) (today : Int) (gid : String)
    (hstored : gid ∈ db.scores.map ScoreRow.game_id) :
    gid ∉ scoreRequested db today := by
  intro hreq
  have h := (List.mem_filter.mp hreq).2
  rw [decide_eq_true_eq] at h
  exact h hstored

/-- Any row of the scores table after the boxscore step was either already
stored or came from a requested (hence previously absent) game id. -/
theorem scoreInsert_mem (db : DB) (api : ApiData) (today : Int) (r : ScoreRow)
    (hr : r ∈ (ingestScore db api today).scores) :
    r ∈ db.scores ∨
      (r.game_id ∈ scoreRequested db today ∧
        r.game_id ∉ db.scores.map ScoreRow.game_id) := by
  unfold ingestScore at hr
  split at hr
  · rcases List.mem_append.mp hr with h | h
    · exact Or.inl h
    · right
      obtain ⟨i, hi, hsome⟩ := List.mem_filterMap.mp h
      cases hls : api.linescoreResp i with
      | none => rw [hls] at hsome; cases hsome
      | some p =>
          rw [hls] at hsome
          cases hsome
          constructor
          · exact hi
          · have h2 := (List.mem_filter.mp hi).2
            rwa [decide_eq_true_eq] at h2
  · exact Or.inl hr

/-- When the seasons response repeats a stored `season_id`, the seasons
insert (the run's first statement) fails with the primary-key constraint
error, and so does the whole run. -/
theorem ingest_error_of_overlap (db : DB) (api : ApiData) (today : Int)
    (h : ∃ r ∈ api.seasonsResp, r.season_id ∈ db.seasons.map SeasonRow.season_id) :
    ingestSeason db api = Except.error pkErrMsg ∧
    ingestRun db api today = Except.error pkErrMsg := by
  obtain ⟨r, hr, hmem⟩ := h
  obtain ⟨t, ht, htid⟩ := List.mem_map.mp hmem
  have hb : (api.seasonsResp.any
      (fun r => db.seasons.any (fun t => decide (t.season_id = r.season_id)))) = true := by
    simp only [List.any_eq_true, decide_eq_true_eq]
    exact ⟨r, hr, t, ht, htid⟩
  have hs : ingestSeason db api = Except.error pkErrMsg := by
    unfold ingestSeason pkInsert
    simp only [bind, Except.bind, hb, Bool.true_or, if_pos]
  refine ⟨hs, ?_⟩
  unfold ingestRun
  simp only [bind, Except.bind, hs]

/-- Claim C3: the boxscore ingest diffs game-id lists — an id already stored
in `scores` is never requested again and never re-inserted, and the requested
ids are exactly the schedule candidates minus the stored ids. -/
theorem C3_score_diff_check (db : DB) (api : ApiData) (today : Int) :
    (∀ gid ∈ db.scores.map ScoreRow.game_id, gid ∉ scoreRequested db today) ∧
    (∀ r ∈ (ingestScore db api today).scores,
        r ∈ db.scores ∨
          (r.game_id ∈ scoreRequested db today ∧
            r.game_id ∉ db.scores.map ScoreRow.game_id)) ∧
    scoreRequested db today =
      (scoreCandidates db today).filter
        (fun x => decide (x ∉ db.scores.map ScoreRow.game_id)) :=
  ⟨not_requested_of_stored db today, scoreInsert_mem db api today, rfl⟩

/-- Witness for C3: the game id stored by the first run is not requested
again on a second run. -/
theorem C3_witness : ("745" : String) ∉ scoreRequested exDB1 20 :=
  (C3_score_diff_check exDB1 exApi 20).1 "745" (by decide)

/-- Claim C9: a game id is a candidate for score retrieval only when its
scheduled date is on or before the current date, its season id casts to an
integer of at least 2019, and its date lies within that season's
regular-season bounds; no other game is ever requested. -/
theorem C9_score_window (db : DB) (today : Int) (gid : String)
    (h : gid ∈ scoreRequested db today) :
    ∃ g ∈ db.schedule, ∃ s ∈ db.seasons,
      g.game_id = gid ∧ s.season_id = g.season_id ∧
      g.game_date ≤ today ∧ 2019 ≤ sqlCastInt g.season_id ∧
      s.regular_season_start ≤ g.game_date ∧
      g.game_date ≤ s.regular_season_end := by
  have hc : gid ∈ scoreCandidates db today := (List.mem_filter.mp h).1
  obtain ⟨g, hg, hmem⟩ := List.mem_flatMap.mp hc
  obtain ⟨s, hs, hsome⟩ := List.mem_filterMap.mp hmem
  have hs0 := List.mem_filter.mp hs
  have hsid : s.season_id = g.season_id := by
    have := hs0.2; rwa [decide_eq_true_eq] at this
  split at hsome
  · rename_i hcond
    cases hsome
    exact ⟨g, hg, s, hs0.1, rfl, hsid, hcond.1, hcond.2.1, hcond.2.2.1, hcond.2.2.2⟩
  · cases hsome

/-- Witness for C9: the concrete 2024 game is requested, and the theorem
places it inside the bounded window. -/
theorem C9_witness :
    ∃ g ∈ exDBpre.schedule, ∃ s ∈ exDBpre.seasons,
      g.game_id = "745" ∧ s.season_id = g.season_id ∧
      g.game_date ≤ 20 ∧ 2019 ≤ sqlCastInt g.season_id ∧
      s.regular_season_start ≤ g.game_date ∧
      g.game_date ≤ s.regular_season_end :=
  C9_score_window exDBpre 20 "745" (by decide)

/-- Counterexample to claim C1: a first ingestion run from the empty
database succeeds, but running the ingestion a second time against the
populated database is not an idempotent upsert — it fails with a primary-key
constraint error instead of leaving the tables unchanged by a successful
run. -/
theorem C1_cex_second_run_fails :
    ingestRun DB.empty exApi 20 = Except.ok exDB1 ∧
    ingestRun exDB1 exApi 20 = Except.error pkErrMsg ∧
    ∀ d : DB, ingestRun exDB1 exApi 20 ≠ Except.ok d := by
  refine ⟨rfl, rfl, ?_⟩
  intro d h
  rw [show ingestRun exDB1 exApi 20 = Except.error pkErrMsg from rfl] at h
  exact Except.noConfusion h

/-- Claim C1 as amended: a second ingestion run is not an upsert — whenever
the seasons response repeats a stored `season_id` (as it does when the
database was populated by a first run over the same responses), the run
aborts at its very first insert, the `seasons` insert, with a primary-key
constraint error, so no table is modified. -/
theorem C1_second_run_aborts (db : DB) (api : ApiData) (today : Int)
    (h : ∃ r ∈ api.seasonsResp, r.season_id ∈ db.seasons.map SeasonRow.season_id) :
    ingestSeason db api = Except.error pkErrMsg ∧
    ingestRun db api today = Except.error pkErrMsg :=
  ingest_error_of_overlap db api today h

/-- Witness for the amended C1 at the concrete populated database. -/
theorem C1_witness :
    ingestSeason exDB1 exApi = Except.error pkErrMsg ∧
    ingestRun exDB1 exApi 20 = Except.error pkErrMsg :=
  C1_second_run_aborts exDB1 exApi 20 ⟨exSeasonRow, by decide, by decide⟩

/-- Counterexample to claim C2: the teams ingest step does attempt to insert
a row whose key is already stored — against the populated database it
retries the stored team row and aborts with a primary-key constraint error
instead of skipping it. -/
theorem C2_cex_teams_reattempts_stored_key :
    exTeamRow ∈ teamsAttempted exDB1 exApi ∧
    (exTeamRow.season_id, exTeamRow.team_id) ∈
      exDB1.teams.map (fun t => (t.season_id, t.team_id)) ∧
    ingestTeams exDB1 exApi = Except.error pkErrMsg := by
  refine ⟨by decide, by decide, rfl⟩

/-- Claim C2 as amended: only the boxscore step skips rows already present —
the schedule step appends every reshaped response row unconditionally,
whatever the table already contains, and the scores step inserts only rows
whose game id is absent from `scores`; the seasons and teams steps insert
unconditionally and abort on a duplicate key rather than skip it. -/
theorem C2_only_scores_step_skips (db : DB) (api : ApiData) (today : Int) :
    (ingestSchedule db api).schedule =
      db.schedule ++ (listSeasons db).flatMap (fun i => (api.scheduleResp i).getD []) ∧
    (∀ r ∈ (ingestScore db api today).scores,
        r ∈ db.scores ∨ r.game_id ∉ db.scores.map ScoreRow.game_id) ∧
    (∀ r ∈ api.seasonsResp, r.season_id ∈ db.seasons.map SeasonRow.season_id →
        ingestSeason db api = Except.error pkErrMsg) := by
  refine ⟨rfl, ?_, ?_⟩
  · intro r hr
    rcases scoreInsert_mem db api today r hr with h | h
    · exact Or.inl h
    · exact Or.inr h.2
  · intro r hr hmem
    exact (ingest_error_of_overlap db api today ⟨r, hr, hmem⟩).1

/-- Witness for the amended C2 at the concrete populated database. -/
theorem C2_witness :
    (ingestSchedule exDB1 exApi).schedule =
      exDB1.schedule ++
        (listSeasons exDB1).flatMap (fun i => (exApi.scheduleResp i).getD []) ∧
    ((⟨"745", 3, 5⟩ : ScoreRow) ∈ exDB1.scores ∨
      (⟨"745", 3, 5⟩ : ScoreRow).game_id ∉ exDB1.scores.map ScoreRow.game_id) ∧
    ingestSeason exDB1 exApi = Except.error pkErrMsg :=
  ⟨(C2_only_scores_step_skips exDB1 exApi 20).1,
   (C2_only_scores_step_skips exDB1 exApi 20).2.1 ⟨"745", 3, 5⟩ (by decide),
   (C2_only_scores_step_skips exDB1 exApi 20).2.2 exSeasonRow (by decide) (by decide)⟩

/-- Strings with the same character list are equal. -/
theorem string_eq_of_toList_eq (s t : String) (h : s.toList = t.toList) : s = t := by
  cases s
  cases t
  exact congrArg String.mk (by simpa [String.toList] using h)

/-- A `like` substring match against a string no longer than the pattern is an
exact match. -/
theorem strContains_eq_of_length (pat s : String)
    (h : strContains pat s = true) (hlen : s.length ≤ pat.length) : s = pat := by
  unfold strContains at h
  rw [decide_eq_true_eq] at h
  have hsub : List.Sublist pat.toList s.toList := h.sublist
  have h2 : pat.toList = s.toList := hsub.eq_of_length (le_antisymm hsub.length_le hlen)
  exact string_eq_of_toList_eq s pat h2.symm

/-- The binary outcome is 1 exactly when the home team outscored the away
team. -/
theorem homeWinVal_eq_one_iff (hr ar : Int) : homeWinVal hr ar = 1 ↔ hr > ar := by
  unfold homeWinVal
  split_ifs with h <;> simp [h]

/-- The binary outcome is 0 exactly when the home team did not outscore the
away team. -/
theorem homeWinVal_eq_zero_iff (hr ar : Int) : homeWinVal hr ar = 0 ↔ ¬ hr > ar := by
  unfold homeWinVal
  split_ifs with h <;> simp [h]

/-- Claim C4: every row of the model-input table comes from a scores row
joined to a schedule row of the requested season on the game id, carries the
contiguous away and home team indices for that schedule row's team ids, and
its binary outcome is 1 exactly when the home runs exceed the away runs and
0 otherwise.  (The season filter is a `like` substring match; on season ids
no longer than the requested year's digits it forces exact equality.) -/
theorem C4_stanify_join (db : DB) (season : Int) (row : DRow)
    (hrow : row ∈ stanifyRows db season)
    (hlen : ∀ g ∈ db.schedule, g.season_id.length ≤ (toString season).length) :
    ∃ sc ∈ db.scores, ∃ g ∈ db.schedule,
      g.game_id = sc.game_id ∧ g.season_id = toString season ∧
      row.game_id = sc.game_id ∧
      (∃ pa ∈ modelTeamIndex db season,
          pa.1 = sqlCastInt g.away_team ∧ row.away_team = pa.2) ∧
      (∃ ph ∈ modelTeamIndex db season,
          ph.1 = sqlCastInt g.home_team ∧ row.home_team = ph.2) ∧
      row.home_win = homeWinVal sc.home_runs sc.away_runs ∧
      (row.home_win = 1 ↔ sc.home_runs > sc.away_runs) ∧
      (row.home_win = 0 ↔ ¬ sc.home_runs > sc.away_runs) := by
  have hd : row ∈ cteD db season := List.mem_dedup.mp hrow
  obtain ⟨c, hc, hmemD⟩ := List.mem_flatMap.mp hd
  obtain ⟨bh, hbh, hrow_eq⟩ := List.mem_map.mp hmemD
  obtain ⟨a, ha, hmemC⟩ := List.mem_flatMap.mp hc
  obtain ⟨ba, hba, hc_eq⟩ := List.mem_map.mp hmemC
  obtain ⟨sc, hsc, hmemA⟩ := List.mem_flatMap.mp ha
  obtain ⟨g, hg, ha_eq⟩ := List.mem_map.mp hmemA
  have hgf := List.mem_filter.mp hg
  have hcond := of_decide_eq_true hgf.2
  have hseason : g.season_id = toString season :=
    strContains_eq_of_length (toString season) g.season_id hcond.2 (hlen g hgf.1)
  have hbaf := List.mem_filter.mp hba
  have hba1 : ba.1 = a.away_team := of_decide_eq_true hbaf.2
  have hbhf := List.mem_filter.mp hbh
  have hbh1 : bh.1 = c.home_team := of_decide_eq_true hbhf.2
  subst hrow_eq hc_eq ha_eq
  refine ⟨sc, hsc, g, hgf.1, hcond.1, hseason, rfl,
    ⟨ba, hbaf.1, hba1, rfl⟩, ⟨bh, hbhf.1, hbh1, rfl⟩, rfl,
    homeWinVal_eq_one_iff sc.home_runs sc.away_runs,
    homeWinVal_eq_zero_iff sc.home_runs sc.away_runs⟩

/-- Witness for C4 at the concrete populated database: its single
model-input row. -/
theorem C4_witness :
    ∃ sc ∈ exDB1.scores, ∃ g ∈ exDB1.schedule,
      g.game_id = sc.game_id ∧ g.season_id = toString (2024 : Int) ∧
      (⟨"745", 1, 2, 0, some 2⟩ : DRow).game_id = sc.game_id ∧
      (∃ pa ∈ modelTeamIndex exDB1 2024,
          pa.1 = sqlCastInt g.away_team ∧ (⟨"745", 1, 2, 0, some 2⟩ : DRow).away_team = pa.2) ∧
      (∃ ph ∈ modelTeamIndex exDB1 2024,
          ph.1 = sqlCastInt g.home_team ∧ (⟨"745", 1, 2, 0, some 2⟩ : DRow).home_team = ph.2) ∧
      (⟨"745", 1, 2, 0, some 2⟩ : DRow).home_win = homeWinVal sc.home_runs sc.away_runs ∧
      ((⟨"745", 1, 2, 0, some 2⟩ : DRow).home_win = 1 ↔ sc.home_runs > sc.away_runs) ∧
      ((⟨"745", 1, 2, 0, some 2⟩ : DRow).home_win = 0 ↔ ¬ sc.home_runs > sc.away_runs) :=
  C4_stanify_join exDB1 2024 ⟨"745", 1, 2, 0, some 2⟩ (by decide) (by decide)

/-- Claim C5: when the requested season's team ids are pairwise distinct (as
the `(season_id, team_id)` primary key guarantees for any one season), the
contiguous index assigned by the model-input query (`row_number` ordered by
`team_id`) and the one assigned by the reporting queries (`row_number`
ordered by `team_id, team_abbr`) define the same map from team id to index:
projecting the abbreviation out of the reporting index map yields exactly
the model index map. -/
theorem C5_team_index_agree (db : DB) (season : Int)
    (hnd : ((teamsOfSeason db season).map TeamRow.team_id).Nodup) :
    (reportTeamIndex db season).map (fun r => (r.1, r.2.2)) = modelTeamIndex db season := by
  classical
  set l := teamsOfSeason db season with hl
  haveI : IsTrans TeamRow teamIdLe :=
    ⟨fun _ _ _ hab hbc => le_trans hab hbc⟩
  haveI : IsTotal TeamRow teamIdLe :=
    ⟨fun a b => le_total a.team_id.toList b.team_id.toList⟩
  haveI : IsTrans TeamRow teamIdAbbrLe := by
    refine ⟨fun a b c hab hbc => ?_⟩
    rcases hab with h1 | ⟨h1, h1'⟩ <;> rcases hbc with h2 | ⟨h2, h2'⟩
    · exact Or.inl (lt_trans h1 h2)
    · exact Or.inl (h2 ▸ h1)
    · exact Or.inl (by rw [h1]; exact h2)
    · exact Or.inr ⟨h1.trans h2, le_trans h1' h2'⟩
  haveI : IsTotal TeamRow teamIdAbbrLe := by
    refine ⟨fun a b => ?_⟩
    rcases lt_trichotomy a.team_id.toList b.team_id.toList with h | h | h
    · exact Or.inl (Or.inl h)
    · have htid : a.team_id = b.team_id := string_eq_of_toList_eq _ _ h
      rcases le_total a.team_abbr.toList b.team_abbr.toList with h' | h'
      · exact Or.inl (Or.inr ⟨htid, h'⟩)
      · exact Or.inr (Or.inr ⟨htid.symm, h'⟩)
    · exact Or.inr (Or.inl h)
  have hp1 : List.Perm (l.insertionSort teamIdLe) l := List.perm_insertionSort teamIdLe l
  have hp2 : List.Perm (l.insertionSort teamIdAbbrLe) l := List.perm_insertionSort teamIdAbbrLe l
  have hs1 : (l.insertionSort teamIdLe).Pairwise teamIdLe :=
    List.sorted_insertionSort teamIdLe l
  have hs2 : (l.insertionSort teamIdAbbrLe).Pairwise teamIdAbbrLe :=
    List.sorted_insertionSort teamIdAbbrLe l
  have hnd1 : ((l.insertionSort teamIdLe).map TeamRow.team_id).Nodup :=
    ((hp1.map TeamRow.team_id).nodup_iff).mpr hnd
  have hnd2 : ((l.insertionSort teamIdAbbrLe).map TeamRow.team_id).Nodup :=
    ((hp2.map TeamRow.team_id).nodup_iff).mpr hnd
  have hne1 : (l.insertionSort teamIdLe).Pairwise
      (fun a b => a.team_id ≠ b.team_id) :=
    List.pairwise_map.mp hnd1
  have hne2 : (l.insertionSort teamIdAbbrLe).Pairwise
      (fun a b => a.team_id ≠ b.team_id) :=
    List.pairwise_map.mp hnd2
  have hstrict1 : (l.insertionSort teamIdLe).Pairwise
      (fun a b => a.team_id.toList < b.team_id.toList) :=
    (hs1.and hne1).imp (fun h =>
      lt_of_le_of_ne h.1 (fun heq => h.2 (string_eq_of_toList_eq _ _ heq)))
  have hstrict2 : (l.insertionSort teamIdAbbrLe).Pairwise
      (fun a b => a.team_id.toList < b.team_id.toList) :=
    (hs2.and hne2).imp (fun h => by
      rcases h.1 with hlt | ⟨heq, _⟩
      · exact hlt
      · exact absurd heq h.2)
  haveI : IsAntisymm TeamRow (fun a b => a.team_id.toList < b.team_id.toList) :=
    ⟨fun _ _ h1 h2 => absurd h1 (lt_asymm h2)⟩
  have heq : l.insertionSort teamIdAbbrLe = l.insertionSort teamIdLe :=
    List.eq_of_perm_of_sorted (hp2.trans hp1.symm) hstrict2 hstrict1
  have base : ∀ s : List TeamRow, (s.enum.map (fun p => ((p.1 : Int) + 1))).Nodup := by
    intro s
    have h0 : (s.enum.map Prod.fst).Nodup := by
      rw [List.enum_map_fst]
      exact List.nodup_range s.length
    have hinj : Function.Injective (fun n : Nat => ((n : Int) + 1)) := by
      intro a b hab
      simpa using hab
    have h1 := h0.map hinj
    rw [List.map_map] at h1
    exact h1
  have hnodup1 : ((l.insertionSort teamIdLe).enum.map
      (fun p => (sqlCastInt p.2.team_id, (p.1 : Int) + 1))).Nodup := by
    apply List.Nodup.of_map Prod.snd
    rw [List.map_map]
    exact base _
  have hnodup2 : ((l.insertionSort teamIdLe).enum.map
      (fun p => (sqlCastInt p.2.team_id, p.2.team_abbr, (p.1 : Int) + 1))).Nodup := by
    apply List.Nodup.of_map (fun r => r.2.2)
    rw [List.map_map]
    exact base _
  unfold reportTeamIndex modelTeamIndex
  rw [← hl, heq, List.dedup_eq_self.mpr hnodup2, List.dedup_eq_self.mpr hnodup1,
    List.map_map]
  rfl

/-- Witness for C5 at the concrete populated database. -/
theorem C5_witness :
    (reportTeamIndex exDB1 2024).map (fun r => (r.1, r.2.2)) = modelTeamIndex exDB1 2024 :=
  C5_team_index_agree exDB1 2024 (by decide)

/-- Claim C7: provided the summarized draws contain a `rank` row for each
contiguous team index of the requested season (which the sampler's `rank`
variable supplies), the reporter's CSV has, for every team of the season, a
row carrying that team's abbreviation together with the 5th-percentile,
median and 95th-percentile posterior rank of the matching draws row, and the
CSV rows are ordered by the median estimate. -/
theorem C7_estimates_csv (draws : List DrawRow) (db : DB) (season : Int)
    (hcover : ∀ e ∈ reportTeamIndex db season, ∃ d ∈ draws,
        strContains "rank" d.name = true ∧ sqlCastInt (extractDigits d.name) = e.2.2) :
    (∀ e ∈ reportTeamIndex db season, ∃ row ∈ getEstimates draws db season, ∃ d ∈ draws,
        strContains "rank" d.name = true ∧ sqlCastInt (extractDigits d.name) = e.2.2 ∧
        row.team_abbr = e.2.1 ∧ row.ci_low = d.p5 ∧ row.median = d.p50 ∧
        row.ci_high = d.p95) ∧
    (getEstimates draws db season).Pairwise (fun r s => r.median ≤ s.median) := by
  constructor
  · intro e he
    obtain ⟨d, hd, hrank, hidx⟩ := hcover e he
    refine ⟨{ team_abbr := e.2.1, team_id := extractDigits d.name,
              ci_low := d.p5, median := d.p50, ci_high := d.p95 }, ?_,
            d, hd, hrank, hidx, rfl, rfl, rfl, rfl⟩
    rw [getEstimates, List.mem_insertionSort]
    unfold estCteC
    rw [List.mem_flatMap]
    refine ⟨(extractDigits d.name, d.p5, d.p50, d.p95), ?_, ?_⟩
    · unfold estCteA
      rw [List.mem_map]
      exact ⟨d, List.mem_filter.mpr ⟨hd, hrank⟩, rfl⟩
    · rw [List.mem_map]
      exact ⟨e, List.mem_filter.mpr ⟨he, decide_eq_true hidx⟩, rfl⟩
  · haveI : IsTrans EstRow estLe := by
      refine ⟨fun a b c hab hbc => ?_⟩
      unfold estLe at hab hbc ⊢
      omega
    haveI : IsTotal EstRow estLe := by
      refine ⟨fun a b => ?_⟩
      unfold estLe
      omega
    have hs := List.sorted_insertionSort estLe (estCteC draws db season)
    exact hs.imp (fun h => by unfold estLe at h; omega)

/-- Witness for C7 at the concrete populated database and draws frame. -/
theorem C7_witness :
    (∀ e ∈ reportTeamIndex exDB1 2024, ∃ row ∈ getEstimates exDraws exDB1 2024,
        ∃ d ∈ exDraws,
        strContains "rank" d.name = true ∧ sqlCastInt (extractDigits d.name) = e.2.2 ∧
        row.team_abbr = e.2.1 ∧ row.ci_low = d.p5 ∧ row.median = d.p50 ∧
        row.ci_high = d.p95) ∧
    (getEstimates exDraws exDB1 2024).Pairwise (fun r s => r.median ≤ s.median) :=
  C7_estimates_csv exDraws exDB1 2024 (by decide)

end MlbPred
